import Mathlib

/-!
Verification of the sqmgr-api claim/assignment engine against its
natural-language specification.

The HTTP handlers (`internal/server/handlers_grid.go`) are embedded directly
from the source.  The `internal/model` package (pool, square, grid, validator)
is not part of the source snapshot — only its tests, callers and migrations
are — so those operations are modelled from the specification; each such
definition carries a doc comment starting with `Modelled from the spec:`.

Conventions:
* square states are the Go `PoolSquareState` strings;
* the owning-user reference is an `Int`, with `0` for the NULL reference
  (Go's zero value for an unset `int64` user id);
* timestamps are natural numbers, `0` standing for Go's zero `time.Time`.
-/

namespace SqMgr

/-- Modelled from the spec: the pool-configured closed set of square states
(`model.PoolSquareStates`, absent from the snapshot).  §3 of the spec:
"`unclaimed`, `claimed`, `paid-unconfirmed`, `paid-confirmed`, or equivalent
small closed set … always include at least unclaimed/claimed". -/
def PoolSquareStates : List String :=
  ["unclaimed", "claimed", "paid-unconfirmed", "paid-confirmed"]

/-- Modelled from the spec: `model.PoolSquareState.IsValid` (absent from the
snapshot): a state value is valid exactly when it belongs to the
pool-configured closed set of states. -/
def stateIsValid (s : String) : Bool :=
  PoolSquareStates.contains s

/-- One audit-log record (`model.PoolSquareLog`): the square it concerns, the
claimant, a free-text note, the requester's network origin, the acting user
(0 for NULL) and a creation timestamp (§3 SquareLog). -/
structure PoolSquareLog where
  squareID : Nat
  claimant : String
  note : String
  remoteAddr : String
  userID : Int
  created : Nat
deriving DecidableEq, Repr

/-- One cell of a grid (`model.PoolSquare`): 0-based position, claimant display
name (empty when unclaimed), state, owning-user reference (0 for NULL), and
its audit-log entries ordered newest first (§3 Square). -/
structure PoolSquare where
  squareID : Nat
  claimant : String
  state : String
  userID : Int
  logs : List PoolSquareLog
deriving DecidableEq, Repr

/-- The error kinds the concurrency guard can surface (§4.2, §7):
`alreadyClaimed` is `model.ErrSquareAlreadyClaimed`. -/
inductive SaveError where
  | alreadyClaimed
  | staleState
deriving DecidableEq, Repr

/-- Modelled from the spec: `model.PoolSquare.Save` (absent from the
snapshot), the concurrency guard of §4.2 plus the side effects of §4.1.
`persisted` is the stored row at commit time, `updated` the in-memory square
the handler built.  Non-admin writes assert, in the same conditional write,
that the persisted state is exactly `unclaimed` (for claims, i.e. writes whose
new state is `claimed`) or that the square is owned by the acting identity
(for unclaims); claim races surface `alreadyClaimed`, other races
`staleState`.  On success the write persists the update, clears the claimant
and the owning reference whenever the new state is `unclaimed` (§4.1 Unclaim
"clears claimant and owning identity"; §3 invariant), and appends exactly one
log entry, newest first (§4.4). -/
def PoolSquare.Save (persisted updated : PoolSquare) (requireAdmin : Bool)
    (entry : PoolSquareLog) (now : Nat) : Except SaveError PoolSquare :=
  if !requireAdmin && updated.state == "claimed" && !(persisted.state == "unclaimed") then
    .error .alreadyClaimed
  else if !requireAdmin && updated.state == "unclaimed" && !(persisted.userID == updated.userID) then
    .error .staleState
  else
    let cleared := updated.state == "unclaimed"
    let claimant := if cleared then "" else updated.claimant
    .ok { squareID := persisted.squareID
          claimant := claimant
          state := updated.state
          userID := if cleared then 0 else updated.userID
          logs := { entry with squareID := persisted.squareID
                               claimant := claimant
                               created := now } :: persisted.logs }

/-- Modelled from the spec: the printable-character test of the validator
collaborator (`internal/validator`, absent from the snapshot). -/
def isPrintableChar (c : Char) : Bool :=
  0x20 ≤ c.toNat

/-- Modelled from the spec: the word-character test of the validator
collaborator (`internal/validator`, absent from the snapshot). -/
def isWordChar (c : Char) : Bool :=
  c.isAlphanum || c == '_'

/-- Modelled from the spec: the claimant-name validation the handler performs
through the validator collaborator (`v.Printable` composed with
`v.ContainsWordChar`, absent from the snapshot).  §4.1: "claimantName must be
non-empty, printable, containing at least one word character, and within the
configured maximum length". -/
def validClaimantName (maxLen : Nat) (name : String) : Bool :=
  !(name == "") && name.toList.all isPrintableChar
    && name.toList.any isWordChar && decide (name.length ≤ maxLen)

/-- Payload of `POST /pool/{token}/square/{id}`, from
`postPoolTokenSquareIDEndpoint` in `handlers_grid.go`. -/
structure PostPayload where
  claimant : String
  state : String
  note : String
  unclaim : Bool
  rename : Bool
deriving DecidableEq, Repr

/-- Outcome of the square endpoint: a 200 with the square JSON, a 400
validation failure, a 403, or a 500 carrying the save error. -/
inductive HandlerResult where
  | ok
  | validationError
  | forbidden
  | internalError (e : SaveError)
deriving DecidableEq, Repr

/-- Result of one run of the square endpoint: the HTTP-level outcome and the
persisted square after the request (unchanged unless a save succeeded). -/
structure PostSquareResult where
  result : HandlerResult
  square : PoolSquare
deriving DecidableEq, Repr

/-- Embedding of `postPoolTokenSquareIDEndpoint` (`handlers_grid.go`,
lines 623–774), after the square fetch and JSON decode: the lock gate, then
the rename / claim / unclaim / admin-action branches, each ending in a
`square.Save` call.  `locked` is the value of the external `pool.IsLocked()`
predicate, `isAdmin` of `user.IsAdminOf`, `userID` the acting user's id. -/
def postPoolTokenSquareID (locked isAdmin : Bool) (userID : Int) (maxLen : Nat)
    (remoteAddr : String) (now : Nat) (payload : PostPayload)
    (square : PoolSquare) : PostSquareResult :=
  if locked && !isAdmin then
    ⟨.forbidden, square⟩
  else if payload.rename then
    if !isAdmin then
      ⟨.forbidden, square⟩
    else if !(validClaimantName maxLen payload.claimant)
        || payload.claimant == square.claimant then
      ⟨.validationError, square⟩
    else
      let updated := { square with claimant := payload.claimant }
      match square.Save updated true
          ⟨square.squareID, "", "admin: changed claimant from " ++ square.claimant,
            remoteAddr, 0, 0⟩ now with
      | .ok s => ⟨.ok, s⟩
      | .error e => ⟨.internalError e, square⟩
  else if 0 < payload.claimant.length then
    if !(validClaimantName maxLen payload.claimant) then
      ⟨.validationError, square⟩
    else
      let updated := { square with claimant := payload.claimant
                                   state := "claimed"
                                   userID := userID }
      match square.Save updated false
          ⟨square.squareID, "", "user: initial claim", remoteAddr, userID, 0⟩ now with
      | .ok s => ⟨.ok, s⟩
      | .error e => ⟨.internalError e, square⟩
  else if payload.unclaim && square.userID == userID then
    let updated := { square with state := "unclaimed", userID := userID }
    match square.Save updated false
        ⟨square.squareID, "", "user: " ++ square.claimant ++ " unclaimed",
          remoteAddr, userID, 0⟩ now with
    | .ok s => ⟨.ok, s⟩
    | .error e => ⟨.internalError e, square⟩
  else if isAdmin then
    let updated := if stateIsValid payload.state then
        { square with state := payload.state }
      else square
    match square.Save updated true
        ⟨square.squareID, "", payload.note, remoteAddr, 0, 0⟩ now with
    | .ok s => ⟨.ok, s⟩
    | .error e => ⟨.internalError e, square⟩
  else
    ⟨.forbidden, square⟩

/-! ### Grid draw -/

/-- One board (`model.Grid`): its id and the optional Draw, i.e. the home-axis
and away-axis digit permutations, both absent before the draw (§3 Grid,
Draw). -/
structure Grid where
  id : Int
  homeNumbers : Option (List Nat)
  awayNumbers : Option (List Nat)
deriving DecidableEq, Repr

/-- The draw error (`model.ErrNumbersAlreadyDrawn`). -/
inductive DrawError where
  | alreadyDrawn
deriving DecidableEq, Repr

/-- Modelled from the spec: `model.Grid.SelectRandomNumbers` (absent from the
snapshot), §4.3 Draw Engine: callable at most once per grid, it fails with
`AlreadyDrawn` if the grid already has a Draw, otherwise it stores the two
freshly generated digit permutations.  The random source is an external
collaborator (§6), so the generated permutations are parameters. -/
def Grid.SelectRandomNumbers (g : Grid) (home away : List Nat) :
    Except DrawError Grid :=
  if g.homeNumbers.isSome then
    .error .alreadyDrawn
  else
    .ok { g with homeNumbers := some home, awayNumbers := some away }

/-- Outcome of the `drawNumbers` action of the grid endpoint. -/
inductive DrawResult where
  | ok
  | badRequestAlreadyDrawn
deriving DecidableEq, Repr

/-- Embedding of the `drawNumbers` action of `postPoolTokenGridIDEndpoint`
(`handlers_grid.go`, lines 835–853): `grid.SelectRandomNumbers()` followed by
`grid.Save`; `ErrNumbersAlreadyDrawn` surfaces as a 400 and the grid is left
untouched. -/
def postPoolTokenGridIDDraw (g : Grid) (home away : List Nat) :
    DrawResult × Grid :=
  match g.SelectRandomNumbers home away with
  | .error .alreadyDrawn => (.badRequestAlreadyDrawn, g)
  | .ok g2 => (.ok, g2)

/-! ### Pool log endpoint -/

/-- Maximum page size of the pool log endpoint (`maxPerPage` in
`getPoolTokenLogEndpoint`). -/
def logMaxPerPage : Int := 100

/-- Default page size of the pool log endpoint (`defaultPerPage` in
`getPoolTokenLogEndpoint`). -/
def logDefaultPerPage : Int := 100

/-- Modelled from the spec: `model.Pool.Logs` (absent from the snapshot),
§4.4 Audit Log: `Query(offset, limit)` returns entries ordered newest-first.
`allLogs` is the pool's full ledger, stored newest first. -/
def Pool.Logs (allLogs : List PoolSquareLog) (offset limit : Int) :
    List PoolSquareLog :=
  (allLogs.drop offset.toNat).take limit.toNat

/-- One HTTP response written by the pool log endpoint. -/
inductive LogWrite where
  | errorForbidden
  | errorBadRequest
  | okLogs (logs : List PoolSquareLog) (total : Nat)
deriving DecidableEq, Repr

/-- Observable behaviour of one run of the pool log endpoint: every response
written, in order, and the `(offset, limit)` the `pool.Logs` query was
executed with, if it was reached. -/
structure LogEndpointRun where
  writes : List LogWrite
  queried : Option (Int × Int)
deriving DecidableEq, Repr

/-- Embedding of `getPoolTokenLogEndpoint` (`handlers_grid.go`,
lines 305–360).  The source writes the limit-exceeded 400 response without
returning, so the query and the 200 response still follow it; the embedding
reproduces that control flow faithfully. -/
def getPoolTokenLog (isAdmin : Bool) (offsetRaw limitRaw : Int)
    (allLogs : List PoolSquareLog) : LogEndpointRun :=
  if !isAdmin then
    ⟨[.errorForbidden], none⟩
  else
    let offset := if offsetRaw < 0 then 0 else offsetRaw
    let limit := if limitRaw ≤ 0 then logDefaultPerPage else limitRaw
    let overLimitWrites :=
      if limit > logMaxPerPage then [LogWrite.errorBadRequest] else []
    let logs := Pool.Logs allLogs offset limit
    ⟨overLimitWrites ++ [.okLogs logs allLogs.length], some (offset, limit)⟩

/-! ### Grid deletion -/

/-- Error kinds of the grid-deletion endpoint: the grid id is unknown, or it
is the pool's last grid (`model.ErrLastGrid`). -/
inductive DeleteError where
  | notFound
  | lastGrid
deriving DecidableEq, Repr

/-- A pool viewed as its list of grid ids (§3 Pool: "an ordered list of
grids"); ids are unique. -/
structure PoolGrids where
  grids : List Int
deriving DecidableEq, Repr

/-- Embedding of `deletePoolTokenGridIDEndpoint` (`handlers_grid.go`,
lines 362–390): `pool.GridByID` (404 when unknown) followed by
`grid.Delete`.  `Delete` itself is absent from the snapshot; modelled from
the spec: deletion of the pool's last grid is rejected with `ErrLastGrid`
(surfaced as a 400) and otherwise exactly the addressed grid is removed.
Returns the error, if any, and the pool afterwards. -/
def deletePoolTokenGridID (p : PoolGrids) (id : Int) :
    Option DeleteError × PoolGrids :=
  if !(p.grids.contains id) then
    (some .notFound, p)
  else if p.grids.length ≤ 1 then
    (some .lastGrid, p)
  else
    (none, ⟨p.grids.erase id⟩)

/-! ### Pool lock -/

/-- Modelled from the spec: `model.Pool.IsLocked` (absent from the snapshot;
its behaviour is pinned by `TestLocks` in `pool_test.go`): a pool is locked
when its lock timestamp is set and is not after the current time.  Timestamps
are naturals with `0` for Go's zero `time.Time`. -/
def Pool.IsLocked (locks now : Nat) : Bool :=
  if locks == 0 then false else decide (locks ≤ now)

/-! ### Operation sequences on one square -/

/-- The varying inputs of one square-endpoint request. -/
structure SquareOp where
  locked : Bool
  isAdmin : Bool
  userID : Int
  remoteAddr : String
  now : Nat
  payload : PostPayload
deriving DecidableEq, Repr

/-- Run one square-endpoint request. -/
def SquareOp.apply (op : SquareOp) (maxLen : Nat) (sq : PoolSquare) :
    PostSquareResult :=
  postPoolTokenSquareID op.locked op.isAdmin op.userID maxLen op.remoteAddr
    op.now op.payload sq

/-- Run a sequence of square-endpoint requests, threading the persisted
square. -/
def runOps (maxLen : Nat) (sq : PoolSquare) : List SquareOp → PoolSquare
  | [] => sq
  | op :: ops => runOps maxLen (op.apply maxLen sq).square ops

/-- Count the successful (state-changing, 200-returning) operations of a
sequence. -/
def successCount (maxLen : Nat) (sq : PoolSquare) : List SquareOp → Nat
  | [] => 0
  | op :: ops =>
      (if (op.apply maxLen sq).result = .ok then 1 else 0)
        + successCount maxLen (op.apply maxLen sq).square ops

/-- The invariant direction that the concurrency guard does enforce: an
unclaimed square has an empty claimant and a NULL owning reference. -/
def unclaimedCleared (sq : PoolSquare) : Bool :=
  !(sq.state == "unclaimed") || (sq.claimant == "" && sq.userID == 0)

/-! Helper lemmas about the save guard and the square endpoint. -/

theorem Save_ok_spec (persisted updated : PoolSquare) (adm : Bool)
    (entry : PoolSquareLog) (now : Nat) (s : PoolSquare)
    (h : persisted.Save updated adm entry now = .ok s) :
    s.state = updated.state ∧ unclaimedCleared s = true ∧
      ∃ e, s.logs = e :: persisted.logs ∧ e.created = now ∧ e.note = entry.note := by
  unfold PoolSquare.Save at h
  split at h
  · exact absurd h (by simp)
  · split at h
    · exact absurd h (by simp)
    · injection h with h
      subst h
      refine ⟨rfl, ?_, ⟨_, rfl, rfl, rfl⟩⟩
      by_cases hc : updated.state == "unclaimed" <;>
        simp [unclaimedCleared, hc]

theorem postSquare_shape (l a : Bool) (u : Int) (m : Nat) (rad : String)
    (now : Nat) (p : PostPayload) (sq : PoolSquare) :
    ((postPoolTokenSquareID l a u m rad now p sq).result ≠ .ok ∧
      (postPoolTokenSquareID l a u m rad now p sq).square = sq) ∨
    ((postPoolTokenSquareID l a u m rad now p sq).result = .ok ∧
      ∃ upd adm entry, sq.Save upd adm entry now
        = .ok (postPoolTokenSquareID l a u m rad now p sq).square) := by
  simp only [postPoolTokenSquareID]
  repeat' split
  all_goals
    first
      | (left; exact ⟨by simp, rfl⟩)
      | (right; exact ⟨rfl, _, _, _, by assumption⟩)

/-! ### Claims -/

/-- C10: `Pool.IsLocked` returns true if and only if the pool's lock
timestamp is non-zero and not after the current time; a zero or future lock
timestamp reports unlocked. -/
theorem isLocked_iff_nonzero_and_past (locks now : Nat) :
    Pool.IsLocked locks now = true ↔ locks ≠ 0 ∧ locks ≤ now := by
  unfold Pool.IsLocked
  by_cases h : locks = 0 <;> simp [h]

/-- C3: a `drawNumbers` action on a grid that already has a Draw fails with
`AlreadyDrawn` (a 400 response) and leaves the grid — in particular the
existing Draw values — unchanged. -/
theorem second_draw_already_drawn (g : Grid) (home away hn : List Nat)
    (h : g.homeNumbers = some hn) :
    postPoolTokenGridIDDraw g home away = (.badRequestAlreadyDrawn, g) := by
  unfold postPoolTokenGridIDDraw Grid.SelectRandomNumbers
  simp [h]

/-- Witness for C3: drawing on a grid whose Draw is already
`[0,…,9]/[9,…,0]` fails with `AlreadyDrawn` and changes nothing. -/
theorem second_draw_already_drawn_witness :
    (⟨7, some [0, 1, 2, 3, 4, 5, 6, 7, 8, 9], some [9, 8, 7, 6, 5, 4, 3, 2, 1, 0]⟩
        : Grid).homeNumbers = some [0, 1, 2, 3, 4, 5, 6, 7, 8, 9] ∧
    postPoolTokenGridIDDraw
        ⟨7, some [0, 1, 2, 3, 4, 5, 6, 7, 8, 9], some [9, 8, 7, 6, 5, 4, 3, 2, 1, 0]⟩
        [1, 0, 2, 3, 4, 5, 6, 7, 8, 9] [0, 1, 2, 3, 4, 5, 6, 7, 8, 9]
      = (.badRequestAlreadyDrawn,
          ⟨7, some [0, 1, 2, 3, 4, 5, 6, 7, 8, 9], some [9, 8, 7, 6, 5, 4, 3, 2, 1, 0]⟩) :=
  ⟨rfl, second_draw_already_drawn _ _ _ _ rfl⟩

/-- C8: deleting a pool's last remaining grid is rejected with `ErrLastGrid`
and the pool is unchanged; consequently a non-empty pool still has at least
one grid after any deletion request. -/
theorem pool_keeps_at_least_one_grid (p : PoolGrids) (id : Int)
    (h1 : 1 ≤ p.grids.length) :
    (p.grids = [id] → deletePoolTokenGridID p id = (some .lastGrid, p)) ∧
      1 ≤ (deletePoolTokenGridID p id).2.grids.length := by
  constructor
  · intro h
    simp [deletePoolTokenGridID, h]
  · unfold deletePoolTokenGridID
    split
    · exact h1
    · split
      · exact h1
      · rename_i hmem hlen
        have hm : id ∈ p.grids := by
          simpa using hmem
        simp only [List.length_erase_of_mem hm]
        omega

/-- Witness for C8: deleting the only grid (id 3) of a one-grid pool is
rejected with `ErrLastGrid` and the pool keeps its grid. -/
theorem pool_keeps_at_least_one_grid_witness :
    1 ≤ (⟨[3]⟩ : PoolGrids).grids.length ∧
      ((⟨[3]⟩ : PoolGrids).grids = [3] →
        deletePoolTokenGridID ⟨[3]⟩ 3 = (some .lastGrid, ⟨[3]⟩)) ∧
      1 ≤ (deletePoolTokenGridID ⟨[3]⟩ 3).2.grids.length :=
  ⟨by decide,
    (pool_keeps_at_least_one_grid ⟨[3]⟩ 3 (by decide)).1,
    (pool_keeps_at_least_one_grid ⟨[3]⟩ 3 (by decide)).2⟩

/-- C5 is violated by the source: on an admin request with `limit = 101`
against a pool holding 101 log entries, the endpoint writes the
limit-exceeded 400 response but — the source lacks a `return` after it —
still executes the `pool.Logs` query with the over-maximum limit 101 and
writes a second, 200 response carrying all 101 entries. -/
theorem log_limit_overflow_still_queries :
    (getPoolTokenLog true 0 101
        (List.replicate 101 ⟨0, "", "", "", 0, 0⟩)).queried = some (0, 101) ∧
    (getPoolTokenLog true 0 101
        (List.replicate 101 ⟨0, "", "", "", 0, 0⟩)).writes
      = [.errorBadRequest,
          .okLogs (List.replicate 101 ⟨0, "", "", "", 0, 0⟩) 101] ∧
    logMaxPerPage < 101 := by
  refine ⟨rfl, ?_, by decide⟩
  rfl

/-- C6: a claim request (no rename flag, non-empty claimant) whose claimant
name fails the validation — non-empty, printable, containing a word
character, within the configured maximum length — is rejected with a
`ValidationError` and the persisted square is unchanged. -/
theorem claim_invalid_name_rejected (locked isAdmin : Bool) (userID : Int)
    (maxLen : Nat) (rad : String) (now : Nat) (p : PostPayload)
    (sq : PoolSquare) (hrn : p.rename = false) (hne : 0 < p.claimant.length)
    (hgate : locked = false ∨ isAdmin = true)
    (hbad : validClaimantName maxLen p.claimant = false) :
    postPoolTokenSquareID locked isAdmin userID maxLen rad now p sq
      = ⟨.validationError, sq⟩ := by
  rcases hgate with h | h <;> subst h <;>
    simp [postPoolTokenSquareID, hrn, hne, hbad]

/-- Witness for C6: claiming with the name `"!!!"` (printable but without a
word character) is rejected with a `ValidationError` and the fresh square is
unchanged. -/
theorem claim_invalid_name_rejected_witness :
    (⟨"!!!", "", "", false, false⟩ : PostPayload).rename = false ∧
    0 < (⟨"!!!", "", "", false, false⟩ : PostPayload).claimant.length ∧
    validClaimantName 50 "!!!" = false ∧
    postPoolTokenSquareID false false 9 50 "9.8.7.6" 2
        ⟨"!!!", "", "", false, false⟩ ⟨15, "", "unclaimed", 0, []⟩
      = ⟨.validationError, ⟨15, "", "unclaimed", 0, []⟩⟩ :=
  ⟨rfl, by decide, by decide,
    claim_invalid_name_rejected false false 9 50 "9.8.7.6" 2
      ⟨"!!!", "", "", false, false⟩ ⟨15, "", "unclaimed", 0, []⟩
      rfl (by decide) (Or.inl rfl) (by decide)⟩

/-- C7: a rename request whose new claimant name equals the square's current
claimant fails with a `ValidationError` and leaves the square unchanged; a
non-admin rename is forbidden; and for an admin the outcome of a rename
request is independent of the pool's lock state. -/
theorem rename_same_name_rejected (locked isAdmin : Bool) (userID : Int)
    (maxLen : Nat) (rad : String) (now : Nat) (p : PostPayload)
    (sq : PoolSquare) (hrn : p.rename = true)
    (hsame : p.claimant = sq.claimant) :
    postPoolTokenSquareID locked true userID maxLen rad now p sq
        = ⟨.validationError, sq⟩ ∧
    (isAdmin = false →
      (postPoolTokenSquareID locked isAdmin userID maxLen rad now p sq).result
        = .forbidden) ∧
    postPoolTokenSquareID true true userID maxLen rad now p sq
      = postPoolTokenSquareID false true userID maxLen rad now p sq := by
  refine ⟨?_, ?_, ?_⟩
  · cases locked <;> simp [postPoolTokenSquareID, hrn, hsame]
  · intro h
    subst h
    cases locked <;> simp [postPoolTokenSquareID, hrn]
  · rfl

/-- Witness for C7: an admin renaming square 15 (claimed by `"Alice"`) to
`"Alice"` again fails with a `ValidationError` on a locked pool, a non-admin
rename is forbidden, and the admin outcome ignores the lock. -/
theorem rename_same_name_rejected_witness :
    (⟨"Alice", "", "", false, true⟩ : PostPayload).rename = true ∧
    (⟨"Alice", "", "", false, true⟩ : PostPayload).claimant
        = (⟨15, "Alice", "claimed", 7, []⟩ : PoolSquare).claimant ∧
    postPoolTokenSquareID true true 7 50 "1.1.1.1" 3
        ⟨"Alice", "", "", false, true⟩ ⟨15, "Alice", "claimed", 7, []⟩
      = ⟨.validationError, ⟨15, "Alice", "claimed", 7, []⟩⟩ :=
  ⟨rfl, rfl,
    (rename_same_name_rejected true false 7 50 "1.1.1.1" 3
      ⟨"Alice", "", "", false, true⟩ ⟨15, "Alice", "claimed", 7, []⟩
      rfl rfl).1⟩

/-- C1: a claim request (no rename flag, non-empty valid claimant) by a
non-admin on a square whose persisted state is not `unclaimed` fails with
`ErrSquareAlreadyClaimed` (surfaced as a 500) and the persisted claimant,
state and owning reference are unchanged; and any claim request that
succeeds was made on a square whose state was `unclaimed` at commit time. -/
theorem claim_requires_unclaimed (locked isAdmin : Bool) (userID : Int)
    (maxLen : Nat) (rad : String) (now : Nat) (p : PostPayload)
    (sq : PoolSquare) (hrn : p.rename = false) (hne : 0 < p.claimant.length)
    (hv : validClaimantName maxLen p.claimant = true) :
    (isAdmin = false → locked = false → sq.state ≠ "unclaimed" →
      postPoolTokenSquareID locked isAdmin userID maxLen rad now p sq
        = ⟨.internalError .alreadyClaimed, sq⟩) ∧
    ((postPoolTokenSquareID locked isAdmin userID maxLen rad now p sq).result
        = .ok → sq.state = "unclaimed") := by
  constructor
  · rintro rfl rfl hstate
    have hb : (sq.state == "unclaimed") = false := by
      simpa using hstate
    simp [postPoolTokenSquareID, PoolSquare.Save, hrn, hne, hv, hb]
  · intro hok
    by_contra hstate
    have hb : (sq.state == "unclaimed") = false := by
      simpa using hstate
    cases isAdmin <;> cases locked <;>
      simp [postPoolTokenSquareID, PoolSquare.Save, hrn, hne, hv, hb] at hok

/-- Witness for C1: a non-admin claim by user 9 with name `"Bob"` on square
15, already claimed by `"Alice"` (user 7), fails with
`ErrSquareAlreadyClaimed` and changes nothing. -/
theorem claim_requires_unclaimed_witness :
    (⟨"Bob", "", "", false, false⟩ : PostPayload).rename = false ∧
    0 < (⟨"Bob", "", "", false, false⟩ : PostPayload).claimant.length ∧
    validClaimantName 50 "Bob" = true ∧
    postPoolTokenSquareID false false 9 50 "9.8.7.6" 2
        ⟨"Bob", "", "", false, false⟩ ⟨15, "Alice", "claimed", 7, []⟩
      = ⟨.internalError .alreadyClaimed, ⟨15, "Alice", "claimed", 7, []⟩⟩ :=
  ⟨rfl, by decide, by decide,
    (claim_requires_unclaimed false false 9 50 "9.8.7.6" 2
      ⟨"Bob", "", "", false, false⟩ ⟨15, "Alice", "claimed", 7, []⟩
      rfl (by decide) (by decide)).1 rfl rfl (by decide)⟩

/-- C2 fails as stated: an admin state change can set the valid state
`claimed` on a fresh square whose claimant is empty and whose owning
reference is NULL; the operation completes (200) and afterwards the state is
not `unclaimed` although the claimant is still empty, refuting
`State == Unclaimed ⇔ claimant is empty`. -/
theorem state_claimant_equivalence_counterexample :
    ((postPoolTokenSquareID false true 7 50 "1.2.3.4" 1
        ⟨"", "claimed", "mark paid", false, false⟩
        ⟨15, "", "unclaimed", 0, []⟩).result = .ok) ∧
    ¬ (((postPoolTokenSquareID false true 7 50 "1.2.3.4" 1
        ⟨"", "claimed", "mark paid", false, false⟩
        ⟨15, "", "unclaimed", 0, []⟩).square.state = "unclaimed")
      ↔ ((postPoolTokenSquareID false true 7 50 "1.2.3.4" 1
        ⟨"", "claimed", "mark paid", false, false⟩
        ⟨15, "", "unclaimed", 0, []⟩).square.claimant = "")) := by
  decide

/-- C2 (amended): after every completed operation, a square in state
`unclaimed` has an empty claimant and a NULL owning reference — this
direction holds after every request whenever it held before; the converse
direction of the claimed equivalence does not hold (an admin state change can
produce a non-`unclaimed` square with an empty claimant and NULL owner). -/
theorem unclaimed_implies_cleared_preserved (l a : Bool) (u : Int) (m : Nat)
    (rad : String) (now : Nat) (p : PostPayload) (sq : PoolSquare)
    (h : unclaimedCleared sq = true) :
    unclaimedCleared (postPoolTokenSquareID l a u m rad now p sq).square
      = true := by
  rcases postSquare_shape l a u m rad now p sq with ⟨-, hs⟩ | ⟨-, upd, adm, entry, hsave⟩
  · rw [hs]; exact h
  · exact (Save_ok_spec _ _ _ _ _ _ hsave).2.1

/-- Witness for C2 (amended): a user unclaiming their own square leaves an
unclaimed square with an empty claimant and NULL owner. -/
theorem unclaimed_implies_cleared_preserved_witness :
    unclaimedCleared ⟨15, "Alice", "claimed", 7, []⟩ = true ∧
    unclaimedCleared (postPoolTokenSquareID false false 7 50 "1.1.1.1" 4
        ⟨"", "", "", true, false⟩ ⟨15, "Alice", "claimed", 7, []⟩).square
      = true :=
  ⟨by decide,
    unclaimed_implies_cleared_preserved false false 7 50 "1.1.1.1" 4
      ⟨"", "", "", true, false⟩ ⟨15, "Alice", "claimed", 7, []⟩ (by decide)⟩

/-- C9: an admin state-change request whose supplied state is not a valid
pool square state still succeeds (200, not a `ValidationError`): the
square's state is left unchanged while a new log entry carrying the supplied
note is appended. -/
theorem admin_invalid_state_keeps_state_appends_log (locked : Bool)
    (userID : Int) (maxLen : Nat) (rad : String) (now : Nat) (p : PostPayload)
    (sq : PoolSquare) (hrn : p.rename = false) (hcl : p.claimant = "")
    (hun : p.unclaim = false) (hst : stateIsValid p.state = false) :
    (postPoolTokenSquareID locked true userID maxLen rad now p sq).result
        = .ok ∧
    (postPoolTokenSquareID locked true userID maxLen rad now p sq).square.state
        = sq.state ∧
    ∃ e, (postPoolTokenSquareID locked true userID maxLen rad now p sq).square.logs
        = e :: sq.logs ∧ e.note = p.note := by
  simp only [postPoolTokenSquareID, PoolSquare.Save, hrn, hcl, hun, hst]
  simp

/-- Witness for C9: an admin posting the invalid state `"bogus"` with note
`"flagged"` against the claimed square 15 gets a 200, the state stays
`claimed`, and one log entry with note `"flagged"` is appended. -/
theorem admin_invalid_state_keeps_state_appends_log_witness :
    (⟨"", "bogus", "flagged", false, false⟩ : PostPayload).rename = false ∧
    stateIsValid "bogus" = false ∧
    ((postPoolTokenSquareID true true 8 50 "2.2.2.2" 5
        ⟨"", "bogus", "flagged", false, false⟩
        ⟨15, "Alice", "claimed", 7, []⟩).result = .ok ∧
      (postPoolTokenSquareID true true 8 50 "2.2.2.2" 5
        ⟨"", "bogus", "flagged", false, false⟩
        ⟨15, "Alice", "claimed", 7, []⟩).square.state
          = (⟨15, "Alice", "claimed", 7, []⟩ : PoolSquare).state ∧
      ∃ e, (postPoolTokenSquareID true true 8 50 "2.2.2.2" 5
        ⟨"", "bogus", "flagged", false, false⟩
        ⟨15, "Alice", "claimed", 7, []⟩).square.logs
          = e :: (⟨15, "Alice", "claimed", 7, []⟩ : PoolSquare).logs
        ∧ e.note = "flagged") :=
  ⟨rfl, by decide,
    admin_invalid_state_keeps_state_appends_log true 8 50 "2.2.2.2" 5
      ⟨"", "bogus", "flagged", false, false⟩ ⟨15, "Alice", "claimed", 7, []⟩
      rfl rfl rfl (by decide)⟩

/-- Auxiliary invariant for C4: along any request sequence whose timestamps
strictly increase and dominate the square's existing log entries, the log
grows by exactly one entry per successful operation and stays strictly
descending by creation time. -/
theorem runOps_audit_aux (m : Nat) (ops : List SquareOp) : ∀ sq : PoolSquare,
    (sq.logs.Pairwise fun x y => y.created < x.created) →
    (∀ e ∈ sq.logs, ∀ op ∈ ops, e.created < op.now) →
    ((ops.map SquareOp.now).Pairwise (· < ·)) →
    (runOps m sq ops).logs.length = sq.logs.length + successCount m sq ops ∧
      ((runOps m sq ops).logs.Pairwise fun x y => y.created < x.created) := by
  induction ops with
  | nil =>
    intro sq h1 _ _
    exact ⟨by simp [runOps, successCount], h1⟩
  | cons op ops ih =>
    intro sq h1 h2 h3
    simp only [List.map_cons, List.pairwise_cons] at h3
    obtain ⟨hhead, htail⟩ := h3
    rcases postSquare_shape op.locked op.isAdmin op.userID m op.remoteAddr
        op.now op.payload sq with ⟨hnok, hframe⟩ | ⟨hok, upd, adm, entry, hsave⟩
    · have happly : (op.apply m sq).square = sq := hframe
      have hres : ¬ (op.apply m sq).result = .ok := hnok
      obtain ⟨hlen, hsor⟩ := ih sq h1
        (fun e he op' hop' => h2 e he op' (List.mem_cons_of_mem _ hop')) htail
      constructor
      · show (runOps m (op.apply m sq).square ops).logs.length
            = sq.logs.length
              + ((if (op.apply m sq).result = .ok then 1 else 0)
                + successCount m (op.apply m sq).square ops)
        rw [happly, if_neg hres, hlen]
        omega
      · show ((runOps m (op.apply m sq).square ops).logs).Pairwise _
        rw [happly]
        exact hsor
    · have happly : (op.apply m sq).result = .ok := hok
      obtain ⟨-, -, e, hlogs, hcre, -⟩ := Save_ok_spec _ _ _ _ _ _ hsave
      have hlogs' : (op.apply m sq).square.logs = e :: sq.logs := hlogs
      have hsorted' : ((op.apply m sq).square.logs).Pairwise
          (fun x y => y.created < x.created) := by
        rw [hlogs']
        refine List.pairwise_cons.mpr ⟨?_, h1⟩
        intro y hy
        rw [hcre]
        exact h2 y hy op (List.mem_cons_self _ _)
      have hdom' : ∀ e' ∈ (op.apply m sq).square.logs, ∀ op' ∈ ops,
          e'.created < op'.now := by
        rw [hlogs']
        intro e' he' op' hop'
        rcases List.mem_cons.mp he' with rfl | hmem
        · rw [hcre]
          exact hhead op'.now (List.mem_map_of_mem _ hop')
        · exact h2 e' hmem op' (List.mem_cons_of_mem _ hop')
      obtain ⟨hlen, hsor⟩ := ih ((op.apply m sq).square) hsorted' hdom' htail
      constructor
      · show (runOps m (op.apply m sq).square ops).logs.length
            = sq.logs.length
              + ((if (op.apply m sq).result = .ok then 1 else 0)
                + successCount m (op.apply m sq).square ops)
        rw [hlen, hlogs', if_pos happly]
        simp only [List.length_cons]
        omega
      · exact hsor

/-- C4: starting from a square with no log entries, after any sequence of
requests with strictly increasing timestamps, the number of log entries
equals the number of successful mutating operations (each successful save
appends exactly one entry), and the entries are ordered newest-first by
creation time. -/
theorem audit_log_completeness (m : Nat) (sq : PoolSquare)
    (ops : List SquareOp) (h0 : sq.logs = [])
    (ht : (ops.map SquareOp.now).Pairwise (· < ·)) :
    (runOps m sq ops).logs.length = successCount m sq ops ∧
      ((runOps m sq ops).logs.Pairwise fun x y => y.created < x.created) := by
  obtain ⟨h1, h2⟩ := runOps_audit_aux m ops sq (by simp [h0]) (by simp [h0]) ht
  exact ⟨by simpa [h0] using h1, h2⟩

/-- Witness for C4: claiming square 15 as `"Alice"` at time 1 and then
admin-marking it `paid-confirmed` at time 2 yields exactly 2 log entries,
newest first. -/
theorem audit_log_completeness_witness :
    (⟨15, "", "unclaimed", 0, []⟩ : PoolSquare).logs = [] ∧
    (([⟨false, false, 7, "a", 1, ⟨"Alice", "", "", false, false⟩⟩,
        ⟨false, true, 8, "b", 2, ⟨"", "paid-confirmed", "cash", false, false⟩⟩]
      : List SquareOp).map SquareOp.now).Pairwise (· < ·) ∧
    ((runOps 50 ⟨15, "", "unclaimed", 0, []⟩
        [⟨false, false, 7, "a", 1, ⟨"Alice", "", "", false, false⟩⟩,
          ⟨false, true, 8, "b", 2, ⟨"", "paid-confirmed", "cash", false, false⟩⟩]).logs.length
      = successCount 50 ⟨15, "", "unclaimed", 0, []⟩
        [⟨false, false, 7, "a", 1, ⟨"Alice", "", "", false, false⟩⟩,
          ⟨false, true, 8, "b", 2, ⟨"", "paid-confirmed", "cash", false, false⟩⟩] ∧
      ((runOps 50 ⟨15, "", "unclaimed", 0, []⟩
        [⟨false, false, 7, "a", 1, ⟨"Alice", "", "", false, false⟩⟩,
          ⟨false, true, 8, "b", 2, ⟨"", "paid-confirmed", "cash", false, false⟩⟩]).logs.Pairwise
        fun x y => y.created < x.created)) :=
  ⟨rfl, by simp,
    audit_log_completeness 50 ⟨15, "", "unclaimed", 0, []⟩
      [⟨false, false, 7, "a", 1, ⟨"Alice", "", "", false, false⟩⟩,
        ⟨false, true, 8, "b", 2, ⟨"", "paid-confirmed", "cash", false, false⟩⟩]
      rfl (by simp)⟩

end SqMgr
